import Mathlib

/-!
Shallow embedding of the client code of a record-management dashboard
(Companies / Locations / Circuits over a backend-as-a-service).

The embedding follows the source files:
* `src/lib/api.ts` — the CRUD API functions (payload construction, error
  propagation, dashboard aggregation, profile bootstrap);
* `src/components/locations/LocationEditForm.tsx` — the submit-time
  geocode-then-save sequence;
* `src/components/address/AddressForm.tsx` — the in-process address
  validation;
* `src/components/locations/LocationCard.tsx` — criticality rendering;
* the map component — coordinate validation and point/bounds construction;
* the shared type declarations (`Company`, `Location`, `Circuit`,
  `UserProfile`).

Backend calls are modelled by `Except ApiError` values (a resolved backend
response or a backend error), and effectful handlers by explicit traces of
the effects they issue.  Machine numbers (JS `number`) are modelled by `ℚ`;
nullable columns by `Option`.
-/

/-- A backend (or auth) error, as delivered to a rejected client call. -/
structure ApiError where
  msg : String
deriving DecidableEq, Repr

/-- `true` exactly when a modelled API call settles as a rejection
(a thrown/re-thrown error), `false` when it resolves with a value. -/
def isRejected {α : Type} : Except ApiError α → Bool
  | .error _ => true
  | .ok _ => false

/-! ## Update payloads (`updateCompany`, `updateLocation`, `updateCircuit`)

Each update function receives the record minus `id`/`created_at`/`updated_at`
(the TS `Omit` types) and sends `{ ...record, updated_at: new
Date().toISOString() }`.  The client clock reading `new Date().toISOString()`
is passed in as `clientNow`. -/

/-- The `Omit<Company, 'id' | 'created_at' | 'updated_at'>` argument of
`updateCompany`. -/
structure CompanyUpdateInput where
  name : String
  street_address : String
  address_city : String
  address_state : String
  address_zip : String
  address_country : String
  phone : String
  email : String
  website : Option String
deriving DecidableEq, Repr

/-- The object `updateCompany` sends with `.update(...)`: the input fields
spread together with an `updated_at` key. -/
structure CompanyUpdatePayload where
  name : String
  street_address : String
  address_city : String
  address_state : String
  address_zip : String
  address_country : String
  phone : String
  email : String
  website : Option String
  updated_at : String
deriving DecidableEq, Repr

/-- Payload construction in `updateCompany`:
`{ ...company, updated_at: new Date().toISOString() }`. -/
def updateCompanyPayload (company : CompanyUpdateInput) (clientNow : String) :
    CompanyUpdatePayload :=
  { name := company.name
    street_address := company.street_address
    address_city := company.address_city
    address_state := company.address_state
    address_zip := company.address_zip
    address_country := company.address_country
    phone := company.phone
    email := company.email
    website := company.website
    updated_at := clientNow }

/-- The `Omit<Location, 'id' | 'created_at' | 'updated_at'>` argument of
`updateLocation` (fields of the declared `Location` type). -/
structure LocationUpdateInput where
  name : String
  address : String
  city : String
  state : String
  zip_code : String
  country : String
  criticality : String
  site_description : Option String
  critical_processes : Option String
  active_users : Int
  num_servers : Int
  hosted_applications : Option String
  company_id : String
deriving DecidableEq, Repr

/-- The object `updateLocation` sends with `.update(...)`. -/
structure LocationUpdatePayload where
  name : String
  address : String
  city : String
  state : String
  zip_code : String
  country : String
  criticality : String
  site_description : Option String
  critical_processes : Option String
  active_users : Int
  num_servers : Int
  hosted_applications : Option String
  company_id : String
  updated_at : String
deriving DecidableEq, Repr

/-- Payload construction in `updateLocation`:
`{ ...location, updated_at: new Date().toISOString() }`. -/
def updateLocationPayload (location : LocationUpdateInput) (clientNow : String) :
    LocationUpdatePayload :=
  { name := location.name
    address := location.address
    city := location.city
    state := location.state
    zip_code := location.zip_code
    country := location.country
    criticality := location.criticality
    site_description := location.site_description
    critical_processes := location.critical_processes
    active_users := location.active_users
    num_servers := location.num_servers
    hosted_applications := location.hosted_applications
    company_id := location.company_id
    updated_at := clientNow }

/-- The `Omit<Circuit, 'id' | 'created_at' | 'updated_at'>` argument of
`updateCircuit` (fields of the declared `Circuit` type; `type` is rendered
as `circuit_type` since `type` is reserved in Lean). -/
structure CircuitUpdateInput where
  carrier : String
  circuit_type : String
  purpose : String
  status : String
  bandwidth : String
  monthlycost : ℚ
  static_ips : Int
  upload_bandwidth : Option String
  contract_start_date : Option String
  contract_term : Option Int
  contract_end_date : Option String
  billing : String
  usage_charges : Bool
  installation_cost : ℚ
  notes : Option String
  location_id : String
deriving DecidableEq, Repr

/-- The object `updateCircuit` sends with `.update(...)`. -/
structure CircuitUpdatePayload where
  carrier : String
  circuit_type : String
  purpose : String
  status : String
  bandwidth : String
  monthlycost : ℚ
  static_ips : Int
  upload_bandwidth : Option String
  contract_start_date : Option String
  contract_term : Option Int
  contract_end_date : Option String
  billing : String
  usage_charges : Bool
  installation_cost : ℚ
  notes : Option String
  location_id : String
  updated_at : String
deriving DecidableEq, Repr

/-- Payload construction in `updateCircuit`:
`{ ...circuit, updated_at: new Date().toISOString() }`. -/
def updateCircuitPayload (circuit : CircuitUpdateInput) (clientNow : String) :
    CircuitUpdatePayload :=
  { carrier := circuit.carrier
    circuit_type := circuit.circuit_type
    purpose := circuit.purpose
    status := circuit.status
    bandwidth := circuit.bandwidth
    monthlycost := circuit.monthlycost
    static_ips := circuit.static_ips
    upload_bandwidth := circuit.upload_bandwidth
    contract_start_date := circuit.contract_start_date
    contract_term := circuit.contract_term
    contract_end_date := circuit.contract_end_date
    billing := circuit.billing
    usage_charges := circuit.usage_charges
    installation_cost := circuit.installation_cost
    notes := circuit.notes
    location_id := circuit.location_id
    updated_at := clientNow }

/-! ## Error paths of the API functions (`src/lib/api.ts`)

Each function awaits one backend response `{ data, error }`, modelled as
`Except ApiError data`, and runs `if (error) throw error; return data` —
the identity on the settled outcome.  Multi-stage functions
(`updateUserProfile`, `getCurrentUserProfile`, `getDashboardStats`) are
modelled stage by stage.  `getEnvironmentVariable` alone wraps its call in
`try/catch` and resolves with `null` on error. -/

/-- `getCompanies`: `if (error) throw error; return data`. -/
def getCompaniesRes {α : Type} (r : Except ApiError α) : Except ApiError α := r

/-- `getCompany`: `if (error) throw error; return data`. -/
def getCompanyRes {α : Type} (r : Except ApiError α) : Except ApiError α := r

/-- `createCompany`: `if (error) throw error; return data`. -/
def createCompanyRes {α : Type} (r : Except ApiError α) : Except ApiError α := r

/-- `updateCompany` (after sending `updateCompanyPayload`):
`if (error) throw error; return data`. -/
def updateCompanyRes {α : Type} (r : Except ApiError α) : Except ApiError α := r

/-- `updateLocation` (after sending `updateLocationPayload`):
`if (error) throw error; return data`. -/
def updateLocationRes {α : Type} (r : Except ApiError α) : Except ApiError α := r

/-- `getLocations`: `.throwOnError()` plus `if (error) throw error`. -/
def getLocationsRes {α : Type} (r : Except ApiError α) : Except ApiError α := r

/-- `getLocation`: `if (error) throw error; return data`. -/
def getLocationRes {α : Type} (r : Except ApiError α) : Except ApiError α := r

/-- `createLocation`: `if (error) throw error; return data`. -/
def createLocationRes {α : Type} (r : Except ApiError α) : Except ApiError α := r

/-- `getCircuits`: `if (error) throw error; return data`. -/
def getCircuitsRes {α : Type} (r : Except ApiError α) : Except ApiError α := r

/-- `getCircuit`: `if (error) throw error; return data`. -/
def getCircuitRes {α : Type} (r : Except ApiError α) : Except ApiError α := r

/-- `createCircuit`: `if (error) throw error; return data`. -/
def createCircuitRes {α : Type} (r : Except ApiError α) : Except ApiError α := r

/-- `updateCircuit` (after sending `updateCircuitPayload`):
`if (error) throw error; return data`. -/
def updateCircuitRes {α : Type} (r : Except ApiError α) : Except ApiError α := r

/-- `getUserProfiles`: `if (error) throw error; return data`. -/
def getUserProfilesRes {α : Type} (r : Except ApiError α) : Except ApiError α := r

/-- `updateUserRole`: `if (error) throw error; return data`. -/
def updateUserRoleRes {α : Type} (r : Except ApiError α) : Except ApiError α := r

/-- The authenticated user object of `supabase.auth.getUser()`. -/
structure AuthUser where
  id : String
deriving DecidableEq, Repr

/-- A `user_profiles` row (fields of the declared `UserProfile` type). -/
structure UserProfileRow where
  id : String
  user_id : String
  role : String
  first_name : Option String
  last_name : Option String
  email : Option String
  phone : Option String
  address : Option String
  created_at : String
  updated_at : String
deriving DecidableEq, Repr

/-- `updateUserProfile`: throws the auth error, throws
`'No authenticated user'` when there is no user, then runs the update
(`if (error) throw error; return profile`). -/
def updateUserProfileRun (auth : Except ApiError (Option AuthUser))
    (update : String → Except ApiError UserProfileRow) :
    Except ApiError UserProfileRow :=
  match auth with
  | .error e => .error e
  | .ok none => .error { msg := "No authenticated user" }
  | .ok (some user) => update user.id

/-- A row of the `getDashboardStats` select: `status, monthlycost, ...`
(`monthlycost` nullable). -/
structure StatCircuitRow where
  status : String
  monthlycost : Option ℚ
deriving DecidableEq, Repr

/-- The object returned by `getDashboardStats`. -/
structure DashboardStats where
  totalCircuits : Nat
  activeCircuits : Nat
  inactiveCircuits : Nat
  totalMonthlyCost : ℚ
deriving DecidableEq, Repr

/-- The in-process aggregation at the end of `getDashboardStats`:
`circuits.length`, `circuits.filter(c => c.status === 'Active').length`,
`circuits.filter(c => c.status === 'Inactive').length`, and
`circuits.reduce((sum, c) => sum + (c.monthlycost || 0), 0)`. -/
def dashboardStats (circuits : List StatCircuitRow) : DashboardStats :=
  { totalCircuits := circuits.length
    activeCircuits := (circuits.filter (fun c => c.status == "Active")).length
    inactiveCircuits := (circuits.filter (fun c => c.status == "Inactive")).length
    totalMonthlyCost := circuits.foldl (fun sum c => sum + c.monthlycost.getD 0) 0 }

/-- `getDashboardStats`: `if (error) throw error`, then the local
aggregation `dashboardStats` over the fetched circuits. -/
def getDashboardStatsRun (r : Except ApiError (List StatCircuitRow)) :
    Except ApiError DashboardStats :=
  match r with
  | .error e => .error e
  | .ok circuits => .ok (dashboardStats circuits)

/-- The row `getCurrentUserProfile` inserts for a new user:
`{ user_id: user.id, role: 'viewer' }`. -/
structure ProfileInsertPayload where
  user_id : String
  role : String
deriving DecidableEq, Repr

/-- `getCurrentUserProfile`: throws the auth error, throws
`'No authenticated user'` without a user, throws
`'Failed to fetch user profile'` on a fetch error; when `.maybeSingle()`
finds no row it inserts `{ user_id, role: 'viewer' }` and returns the
created row (throwing `'Failed to create user profile'` when the insert
fails); otherwise it returns the fetched row.  The first component records
the insert effects issued. -/
def getCurrentUserProfileRun (auth : Except ApiError (Option AuthUser))
    (fetchProfile : String → Except ApiError (Option UserProfileRow))
    (insertProfile : ProfileInsertPayload → Except ApiError UserProfileRow) :
    List ProfileInsertPayload × Except ApiError UserProfileRow :=
  match auth with
  | .error e => ([], .error e)
  | .ok none => ([], .error { msg := "No authenticated user" })
  | .ok (some user) =>
    match fetchProfile user.id with
    | .error _ => ([], .error { msg := "Failed to fetch user profile" })
    | .ok (some data) => ([], .ok data)
    | .ok none =>
      match insertProfile { user_id := user.id, role := "viewer" } with
      | .error _ =>
        ([{ user_id := user.id, role := "viewer" }],
          .error { msg := "Failed to create user profile" })
      | .ok newProfile =>
        ([{ user_id := user.id, role := "viewer" }], .ok newProfile)

/-- The row returned by the `get_environment_variable` RPC. -/
structure EnvRow where
  value : Option String
deriving DecidableEq, Repr

/-- `getEnvironmentVariable`: the call and `if (error) throw error` sit in a
`try` block whose `catch` logs and returns `null`; on success it resolves
`data?.value || null` (an empty-string value is also `null`). -/
def getEnvironmentVariableRes (r : Except ApiError EnvRow) :
    Except ApiError (Option String) :=
  match r with
  | .error _ => .ok none
  | .ok d =>
    .ok (match d.value with
      | none => none
      | some s => if s = "" then none else some s)

/-! ## `getLocations` query construction (`src/lib/api.ts`)

The filter predicates chained onto the select are modelled as a list of
query predicates in the order the code appends them.  A JS filter field is
`undefined` (`none`) or a string, and each `if (filters?.x)` guard tests JS
truthiness: absent or empty-string fields are skipped. -/

/-- The `LocationFilters` object (each field optional). -/
structure LocationFilters where
  search : Option String
  state : Option String
  city : Option String
  criticality : Option String
  company_id : Option String
deriving DecidableEq, Repr

/-- A predicate chained onto the query: `.eq(column, value)` or a `.or(...)`
of `ilike` patterns over column/pattern pairs. -/
inductive QueryPred where
  | eq (column : String) (value : String)
  | orIlike (patterns : List (String × String))
deriving DecidableEq, Repr

/-- JS truthiness of an optional string field: `undefined` and `''` are
falsy. -/
def strTruthy : Option String → Bool
  | none => false
  | some s => if s = "" then false else true

/-- One `if (filters?.x) query = query.eq(column, filters.x)` guard. -/
def eqFilter (column : String) : Option String → List QueryPred
  | none => []
  | some v => if v = "" then [] else [.eq column v]

/-- The `if (filters?.search) query = query.or(...)` guard of
`getLocations`: `ilike` patterns `%search%` over `name`, `address`, `city`,
`state`. -/
def locationSearchFilter : Option String → List QueryPred
  | none => []
  | some s =>
    if s = "" then []
    else
      [.orIlike [("name", "%" ++ s ++ "%"), ("address", "%" ++ s ++ "%"),
        ("city", "%" ++ s ++ "%"), ("state", "%" ++ s ++ "%")]]

/-- The predicates `getLocations` chains onto its select, in code order:
search, then `state`, `city`, `criticality`, `company_id` equality guards. -/
def getLocationsQuery (filters : Option LocationFilters) : List QueryPred :=
  match filters with
  | none => []
  | some f =>
    locationSearchFilter f.search ++ eqFilter "state" f.state ++
      eqFilter "city" f.city ++ eqFilter "criticality" f.criticality ++
      eqFilter "company_id" f.company_id

/-- Whether a query predicate is an equality on the given column. -/
def QueryPred.isEqOn (column : String) : QueryPred → Bool
  | .eq c _ => c == column
  | .orIlike _ => false

/-- Whether a query predicate is a pattern-match disjunction. -/
def QueryPred.isOrIlike : QueryPred → Bool
  | .eq _ _ => false
  | .orIlike _ => true

/-! ## `LocationEditForm.handleSubmit` (`LocationEditForm.tsx`)

On submit the form builds the full address string, geocodes it, and only in
the geocoder's continuation calls `mutate({ ...formData, longitude:
coords?.longitude, latitude: coords?.latitude })`.  `mutate` invokes the
mutation function declared in `useMutation`, and that function is
`mutationFn: () => updateLocation(location.id, formData)` — a zero-argument
closure over `formData`, so the variables object `mutate` received is
discarded and the update is issued with the closed-over form fields alone.
The handler is modelled as the trace of its side effects: the geocode
request, then the save `mutationFn` issues. -/

/-- The coordinates resolved by `geocodeAddress` (or `none` when it resolves
`null`). -/
structure GeocodeCoords where
  longitude : ℚ
  latitude : ℚ
deriving DecidableEq, Repr

/-- The `formData` state of `LocationEditForm` (nullable record fields are
initialised to `''` / `0`, so every field is present). -/
structure LocationFormState where
  name : String
  address : String
  city : String
  state : String
  zip_code : String
  site_description : String
  critical_processes : String
  active_users : Int
  num_servers : Int
  hosted_applications : String
  country : String
  criticality : String
  company_id : String
deriving DecidableEq, Repr

/-- The variables object `handleSubmit` passes to `mutate`:
`{ ...formData, longitude: coords?.longitude, latitude: coords?.latitude }`. -/
structure MutateVariables where
  name : String
  address : String
  city : String
  state : String
  zip_code : String
  site_description : String
  critical_processes : String
  active_users : Int
  num_servers : Int
  hosted_applications : String
  country : String
  criticality : String
  company_id : String
  longitude : Option ℚ
  latitude : Option ℚ
deriving DecidableEq, Repr

/-- A side effect issued by the submit handler.  The save carries the
object actually given to `updateLocation` — the form fields — since
`mutationFn` closes over `formData`. -/
inductive SubmitEffect where
  | geocode (addr : String)
  | save (locationId : String) (payload : LocationFormState)
deriving DecidableEq, Repr

/-- The full address built in `handleSubmit`:
```${formData.address}, ${formData.city}, ${formData.state} ${formData.zip_code}```. -/
def fullAddress (f : LocationFormState) : String :=
  f.address ++ ", " ++ f.city ++ ", " ++ f.state ++ " " ++ f.zip_code

/-- The variables object built in the geocoder's continuation and passed to
`mutate`: the form fields spread with the geocoder's coordinates. -/
def mutateVariables (f : LocationFormState) (coords : Option GeocodeCoords) :
    MutateVariables :=
  { name := f.name
    address := f.address
    city := f.city
    state := f.state
    zip_code := f.zip_code
    site_description := f.site_description
    critical_processes := f.critical_processes
    active_users := f.active_users
    num_servers := f.num_servers
    hosted_applications := f.hosted_applications
    country := f.country
    criticality := f.criticality
    company_id := f.company_id
    longitude := coords.map (fun c => c.longitude)
    latitude := coords.map (fun c => c.latitude) }

/-- The mutation function declared in `useMutation`:
`mutationFn: () => updateLocation(location.id, formData)`.  It takes no
parameter, so the variables object `mutate` hands it is ignored and the
issued save carries only the closed-over `formData`. -/
def mutationFn (locationId : String) (formData : LocationFormState)
    (_variables : MutateVariables) : SubmitEffect :=
  .save locationId formData

/-- The side-effect trace of `handleSubmit`: geocode the full address, and
in the `.then` continuation (so after the geocoder settles with `coords`)
call `mutate` with the coordinate-carrying variables object, which runs
`mutationFn` and issues the single save. -/
def handleSubmitTrace (locationId : String) (f : LocationFormState)
    (coords : Option GeocodeCoords) : List SubmitEffect :=
  [.geocode (fullAddress f), mutationFn locationId f (mutateVariables f coords)]

/-! ## Criticality (`LocationCard.tsx`, `LocationEditForm.tsx`, types) -/

/-- The enumerated severity labels of the spec's glossary. -/
def ValidCriticality (s : String) : Prop :=
  s = "Low" ∨ s = "Medium" ∨ s = "High"

instance (s : String) : Decidable (ValidCriticality s) := by
  unfold ValidCriticality; infer_instance

/-- The option values of the criticality select in `LocationEditForm`. -/
def editFormCriticalityOptions : List String := ["Low", "Medium", "High"]

/-- The badge classes `LocationCard` picks from `location.criticality`, with
the `|| 'text-gray-500 ...'` fallback for any other value. -/
def locationCardCriticalityColors (criticality : String) : String :=
  if criticality = "High" then "text-red-500 bg-red-50 dark:bg-red-900/20"
  else if criticality = "Medium" then "text-yellow-500 bg-yellow-50 dark:bg-yellow-900/20"
  else if criticality = "Low" then "text-green-500 bg-green-50 dark:bg-green-900/20"
  else "text-gray-500 bg-gray-50 dark:bg-gray-900/20"

/-- Modelled from the spec: the backend column constraint on
`locations.criticality` (the database schema and its migrations are not
under `src/`; the spec's glossary fixes the column to the enumerated
severity labels Low/Medium/High).  A location row delivered by the backend
carries a criticality satisfying that constraint. -/
structure BackendLocationRecord where
  criticality : String
  criticality_enum : ValidCriticality criticality

/-! ## `AddressForm` in-process validation (`AddressForm.tsx`)

`validateAndUpdate` awaits `validateAddress` and, when the address is
invalid, only stores the message `'Please enter a valid address'` for
display (a thrown validation error is logged and produces no message).
Nothing in the submit path consults this state. -/

/-- The display message `validateAndUpdate` stores: `none` for a valid
address or a validation failure (the `catch` only logs), a message for an
invalid one. -/
def validateAndUpdate (validateAddressOutcome : Except ApiError Bool) :
    Option String :=
  match validateAddressOutcome with
  | .error _ => none
  | .ok true => none
  | .ok false => some "Please enter a valid address"

/-! ## Map points and bounds (the `LocationMap` component)

For each location the component skips falsy (`undefined`/empty)
coordinates, runs `parseFloat`, and skips `NaN` or out-of-range results;
surviving coordinates become one point added to both the plain data source
and the clustering data source, and extend the bounding box via
`min`/`max`.  A coordinate slot is modelled as `none` for a falsy string
and `some` of the `parseFloat` result, which is `NaN` or a number. -/

/-- The result of `parseFloat` on a truthy coordinate string. -/
inductive JsNum where
  | nan
  | num (q : ℚ)
deriving DecidableEq, Repr

/-- A location as consumed by the map effect. -/
structure MapLocation where
  id : String
  name : String
  criticality : String
  longitude : Option JsNum
  latitude : Option JsNum
deriving DecidableEq, Repr

/-- The validation in the point loop: skip falsy coordinates, then skip
`isNaN(lon) || isNaN(lat) || lon < -180 || lon > 180 || lat < -90 ||
lat > 90`; otherwise yield the parsed pair. -/
def validCoords (longitude latitude : Option JsNum) : Option (ℚ × ℚ) :=
  match longitude, latitude with
  | some jlon, some jlat =>
    match jlon, jlat with
    | .num lon, .num lat =>
      if lon < -180 ∨ 180 < lon ∨ lat < -90 ∨ 90 < lat then none
      else some (lon, lat)
    | _, _ => none
  | _, _ => none

/-- A feature added to the map's data sources. -/
structure MapPoint where
  id : String
  name : String
  criticality : String
  lon : ℚ
  lat : ℚ
  selected : Bool
deriving DecidableEq, Repr

/-- The points the loop adds to the plain data source, one per location
with valid coordinates, in order. -/
def mapPoints (locations : List MapLocation) (selectedLocationId : Option String) :
    List MapPoint :=
  locations.filterMap (fun l =>
    (validCoords l.longitude l.latitude).map (fun c =>
      { id := l.id, name := l.name, criticality := l.criticality
        lon := c.1, lat := c.2
        selected := selectedLocationId == some l.id }))

/-- The same loop adds the identical point to the clustering data source
(`clusterSource.add(point)` right after `dataSource.add(point)`). -/
def clusterSourcePoints (locations : List MapLocation)
    (selectedLocationId : Option String) : List MapPoint :=
  mapPoints locations selectedLocationId

/-- A bounding box as `(swLon, swLat, neLon, neLat)`. -/
structure MapBounds where
  swLon : ℚ
  swLat : ℚ
  neLon : ℚ
  neLat : ℚ
deriving DecidableEq, Repr

/-- One step of the loop's bounds update: the first valid point seeds the
box, later ones extend it with `Math.min`/`Math.max`. -/
def extendBounds (bounds : Option MapBounds) (lon lat : ℚ) : Option MapBounds :=
  match bounds with
  | none => some { swLon := lon, swLat := lat, neLon := lon, neLat := lat }
  | some b =>
    some { swLon := min b.swLon lon, swLat := min b.swLat lat
           neLon := max b.neLon lon, neLat := max b.neLat lat }

/-- The bounding box the camera is fitted to: the fold of the bounds update
over the points the loop adds. -/
def mapBounds (locations : List MapLocation) (selectedLocationId : Option String) :
    Option MapBounds :=
  (mapPoints locations selectedLocationId).foldl
    (fun b p => extendBounds b p.lon p.lat) none

/-- `true` when both fold coordinates lie in the valid longitude/latitude
ranges used by the map component. -/
def PointInRange (p : MapPoint) : Prop :=
  -180 ≤ p.lon ∧ p.lon ≤ 180 ∧ -90 ≤ p.lat ∧ p.lat ≤ 90

/-- A bounding box whose corners are ordered and lie in the valid
longitude/latitude ranges. -/
def BoundsInRange (b : MapBounds) : Prop :=
  -180 ≤ b.swLon ∧ b.swLon ≤ b.neLon ∧ b.neLon ≤ 180 ∧
    -90 ≤ b.swLat ∧ b.swLat ≤ b.neLat ∧ b.neLat ≤ 90

/-! ## Concrete sample values (used to evaluate the model on closed inputs) -/

/-- A concrete `updateCompany` argument. -/
def sampleCompanyInput : CompanyUpdateInput :=
  { name := "Acme", street_address := "1 Main St", address_city := "Houston"
    address_state := "TX", address_zip := "77001", address_country := "USA"
    phone := "555-0100", email := "ops at acme", website := none }

/-- A fetched circuit row with status `Active` and a monthly cost. -/
def statRowActive : StatCircuitRow := { status := "Active", monthlycost := some 100 }

/-- A fetched circuit row with status `Inactive` and a monthly cost. -/
def statRowInactive : StatCircuitRow := { status := "Inactive", monthlycost := some 250 }

/-- A fetched circuit row with a third status and a `null` monthly cost. -/
def statRowPendingNull : StatCircuitRow := { status := "Pending", monthlycost := none }

/-- A location whose coordinates parse to numbers inside the valid ranges. -/
def goodMapLocation : MapLocation :=
  { id := "loc-1", name := "HQ", criticality := "High"
    longitude := some (.num (-100)), latitude := some (.num 40) }

/-- A location whose longitude parses to 200, outside `[-180, 180]`. -/
def badMapLocation : MapLocation :=
  { id := "loc-2", name := "Annex", criticality := "Low"
    longitude := some (.num 200), latitude := some (.num 10) }

/-- A profile fetch that finds no row for any user id. -/
def fetchProfileNone : String → Except ApiError (Option UserProfileRow) :=
  fun _ => .ok none

/-- A profile insert that echoes the payload's `user_id` and `role` into the
created row, as `.insert([...]).select().single()` does. -/
def insertProfileEcho : ProfileInsertPayload → Except ApiError UserProfileRow :=
  fun p =>
    .ok { id := "profile-1", user_id := p.user_id, role := p.role
          first_name := none, last_name := none, email := none, phone := none
          address := none, created_at := "t0", updated_at := "t0" }

/-- A concrete edit-form state. -/
def sampleFormState : LocationFormState :=
  { name := "HQ", address := "1 Main St", city := "Houston", state := "TX"
    zip_code := "77001", site_description := "", critical_processes := ""
    active_users := 10, num_servers := 2, hosted_applications := ""
    country := "USA", criticality := "High", company_id := "co-1" }

/-- A concrete `getLocations` filter object: a search string, a state, an
empty city, and no criticality or company filter. -/
def sampleLocationFilters : LocationFilters :=
  { search := some "hou", state := some "TX", city := some ""
    criticality := none, company_id := none }

/-! ## Helper lemmas -/

theorem foldl_add_map_sum {α : Type} (f : α → ℚ) (l : List α) :
    ∀ (a : ℚ), l.foldl (fun s c => s + f c) a = a + (l.map f).sum := by
  induction l with
  | nil => intro a; simp
  | cons c l ih => intro a; simp [ih]; ring

theorem countP_disjoint {α : Type} (p q : α → Bool)
    (hdisj : ∀ x, p x = true → q x = false) (l : List α) :
    l.countP p + l.countP q ≤ l.length ∧
      (l.countP p + l.countP q = l.length → ∀ x ∈ l, p x = true ∨ q x = true) := by
  induction l with
  | nil => simp
  | cons a l ih =>
    rcases ih with ⟨ih1, ih2⟩
    by_cases hp : p a = true
    · have hq := hdisj a hp
      constructor
      · simp [List.countP_cons, hp, hq]; omega
      · intro heq x hx
        rcases List.mem_cons.mp hx with rfl | hx
        · exact Or.inl hp
        · refine ih2 ?_ x hx
          simp [List.countP_cons, hp, hq] at heq
          omega
    · by_cases hq : q a = true
      · constructor
        · simp [List.countP_cons, hp, hq]; omega
        · intro heq x hx
          rcases List.mem_cons.mp hx with rfl | hx
          · exact Or.inr hq
          · refine ih2 ?_ x hx
            simp [List.countP_cons, hp, hq] at heq
            omega
      · constructor
        · simp [List.countP_cons, hp, hq]; omega
        · intro heq x hx
          exfalso
          simp [List.countP_cons, hp, hq] at heq
          omega

theorem length_filterMap_eq_countP {α β : Type} (f : α → Option β) (l : List α) :
    (l.filterMap f).length = l.countP (fun a => (f a).isSome) := by
  induction l with
  | nil => simp
  | cons a l ih =>
    cases hfa : f a <;>
      simp [List.filterMap_cons, hfa, List.countP_cons, ih]

theorem validCoords_range {lon lat : Option JsNum} {lo la : ℚ}
    (h : validCoords lon lat = some (lo, la)) :
    -180 ≤ lo ∧ lo ≤ 180 ∧ -90 ≤ la ∧ la ≤ 90 := by
  cases lon with
  | none => simp [validCoords] at h
  | some jlon =>
    cases lat with
    | none => simp [validCoords] at h
    | some jlat =>
      cases jlon with
      | nan => simp [validCoords] at h
      | num lonq =>
        cases jlat with
        | nan => simp [validCoords] at h
        | num latq =>
          simp only [validCoords] at h
          split at h
          · simp at h
          · rename_i hcond
            push_neg at hcond
            obtain ⟨h1, h2, h3, h4⟩ := hcond
            obtain ⟨rfl, rfl⟩ : lonq = lo ∧ latq = la := by
              simpa using h
            exact ⟨not_lt.mp (by simpa using h1), not_lt.mp (by simpa using h2),
              not_lt.mp (by simpa using h3), not_lt.mp (by simpa using h4)⟩

theorem foldl_extendBounds_range (ps : List MapPoint) :
    (∀ p ∈ ps, PointInRange p) →
      ∀ (b0 : Option MapBounds), (∀ b, b0 = some b → BoundsInRange b) →
      ∀ b, ps.foldl (fun b p => extendBounds b p.lon p.lat) b0 = some b →
        BoundsInRange b := by
  induction ps with
  | nil => intro _ b0 hb0 b hb; exact hb0 b hb
  | cons p ps ih =>
    intro h b0 hb0 b hb
    simp only [List.foldl_cons] at hb
    refine ih (fun q hq => h q (List.mem_cons_of_mem _ hq))
      (extendBounds b0 p.lon p.lat) ?_ b hb
    intro b' hb'
    obtain ⟨h1, h2, h3, h4⟩ := h p (List.mem_cons_self _ _)
    cases b0 with
    | none =>
      obtain rfl : MapBounds.mk p.lon p.lat p.lon p.lat = b' := by
        simpa [extendBounds] using hb'
      exact ⟨h1, le_refl _, h2, h3, le_refl _, h4⟩
    | some bb =>
      obtain ⟨g1, g2, g3, g4, g5, g6⟩ := hb0 bb rfl
      obtain rfl : MapBounds.mk (min bb.swLon p.lon) (min bb.swLat p.lat)
          (max bb.neLon p.lon) (max bb.neLat p.lat) = b' := by
        simpa [extendBounds] using hb'
      refine ⟨le_min g1 h1, ?_, max_le g3 h2, le_min g4 h3, ?_, max_le g6 h4⟩
      · exact le_trans (min_le_left _ _) (le_trans g2 (le_max_left _ _))
      · exact le_trans (min_le_left _ _) (le_trans g5 (le_max_left _ _))

/-! ## Claims -/

/-- C1 (counterexample): the claim says the client does not compute or
supply `updated_at` values sent with an update, but `updateCompany` spreads
`updated_at: new Date().toISOString()` into the sent object: at a concrete
input the sent payload carries exactly the client clock reading, and two
different client clock readings produce different payloads. -/
theorem update_payload_depends_on_client_clock :
    (updateCompanyPayload sampleCompanyInput "2025-01-01T00:00:00.000Z").updated_at
        = "2025-01-01T00:00:00.000Z" ∧
      updateCompanyPayload sampleCompanyInput "2025-01-01T00:00:00.000Z" ≠
        updateCompanyPayload sampleCompanyInput "2025-06-01T12:00:00.000Z" := by
  exact ⟨rfl, by decide⟩

/-- C1 (amended): the update payloads of `updateCompany`, `updateLocation`
and `updateCircuit` never carry a `created_at` key (the payload types have
no such field), but each carries an `updated_at` computed client-side as
the current client time, with all other keys copied from the input. -/
theorem update_payloads_set_updated_at_from_client_clock
    (c : CompanyUpdateInput) (l : LocationUpdateInput) (k : CircuitUpdateInput)
    (clientNow : String) :
    (updateCompanyPayload c clientNow).updated_at = clientNow ∧
      (updateLocationPayload l clientNow).updated_at = clientNow ∧
      (updateCircuitPayload k clientNow).updated_at = clientNow ∧
      (updateCompanyPayload c clientNow).name = c.name ∧
      (updateLocationPayload l clientNow).criticality = l.criticality ∧
      (updateCircuitPayload k clientNow).monthlycost = k.monthlycost :=
  ⟨rfl, rfl, rfl, rfl, rfl, rfl⟩

/-- C2 (counterexample): the claim says no API operation swallows a backend
error and returns a substitute value, but `getEnvironmentVariable` catches
the error of its RPC call and resolves with `null`: on a concrete backend
error it settles as a resolved `none`, not a rejection. -/
theorem getEnvironmentVariable_resolves_null_on_backend_error :
    getEnvironmentVariableRes (.error { msg := "boom" }) = .ok none ∧
      isRejected (getEnvironmentVariableRes (.error { msg := "boom" })) = false :=
  ⟨rfl, rfl⟩

/-- C2 (amended): every API operation except `getEnvironmentVariable`
propagates a backend error (of any stage) as a rejected operation;
`getEnvironmentVariable` alone catches the error and resolves with `null`
in its place. -/
theorem api_operations_error_propagation (α : Type) (e : ApiError)
    (upd : String → Except ApiError UserProfileRow) (u : AuthUser)
    (fetch : String → Except ApiError (Option UserProfileRow))
    (ins : ProfileInsertPayload → Except ApiError UserProfileRow) :
    getCompaniesRes (Except.error e : Except ApiError α) = .error e ∧
      getCompanyRes (Except.error e : Except ApiError α) = .error e ∧
      createCompanyRes (Except.error e : Except ApiError α) = .error e ∧
      updateCompanyRes (Except.error e : Except ApiError α) = .error e ∧
      updateLocationRes (Except.error e : Except ApiError α) = .error e ∧
      getLocationsRes (Except.error e : Except ApiError α) = .error e ∧
      getLocationRes (Except.error e : Except ApiError α) = .error e ∧
      createLocationRes (Except.error e : Except ApiError α) = .error e ∧
      getCircuitsRes (Except.error e : Except ApiError α) = .error e ∧
      getCircuitRes (Except.error e : Except ApiError α) = .error e ∧
      createCircuitRes (Except.error e : Except ApiError α) = .error e ∧
      updateCircuitRes (Except.error e : Except ApiError α) = .error e ∧
      getUserProfilesRes (Except.error e : Except ApiError α) = .error e ∧
      updateUserRoleRes (Except.error e : Except ApiError α) = .error e ∧
      updateUserProfileRun (.error e) upd = .error e ∧
      isRejected (updateUserProfileRun (.ok none) upd) = true ∧
      isRejected (updateUserProfileRun (.ok (some u)) (fun _ => .error e)) = true ∧
      getDashboardStatsRun (.error e) = .error e ∧
      (getCurrentUserProfileRun (.error e) fetch ins).2 = .error e ∧
      isRejected (getCurrentUserProfileRun (.ok none) fetch ins).2 = true ∧
      isRejected (getCurrentUserProfileRun (.ok (some u)) (fun _ => .error e) ins).2
        = true ∧
      isRejected (getCurrentUserProfileRun (.ok (some u)) (fun _ => .ok none)
        (fun _ => .error e)).2 = true ∧
      getEnvironmentVariableRes (.error e) = .ok none :=
  ⟨rfl, rfl, rfl, rfl, rfl, rfl, rfl, rfl, rfl, rfl, rfl, rfl, rfl, rfl, rfl,
    rfl, rfl, rfl, rfl, rfl, rfl, rfl, rfl⟩

/-- C3 (counterexample): the claim says no local API function filters,
counts, or sums fetched records in-process, but the tail of
`getDashboardStats` does exactly that: on a concrete fetched list of two
circuits it returns the in-process count of all rows, the counts of the
status-filtered rows, and the sum of their costs — values that differ from
what the same code returns on an empty fetch. -/
theorem getDashboardStats_counts_and_sums_in_process :
    dashboardStats [statRowActive, statRowInactive] =
        { totalCircuits := 2, activeCircuits := 1, inactiveCircuits := 1,
          totalMonthlyCost := 350 } ∧
      dashboardStats [statRowActive, statRowInactive] ≠ dashboardStats [] := by
  constructor
  · show dashboardStats _ = _
    simp [dashboardStats, statRowActive, statRowInactive]
    norm_num
  · decide

/-- C3 (amended): the list-returning API functions resolve with the fetched
data unchanged, and the one exception is `getDashboardStats`, whose tail
filters, counts and sums the fetched circuit rows in-process: its result is
the length of the fetched list, the lengths of the status-filtered
sublists, and the fold of the (null-defaulted) monthly costs. -/
theorem api_returns_fetched_data_unchanged_except_dashboard (α : Type) (d : α)
    (circuits : List StatCircuitRow) :
    getCompaniesRes (Except.ok d : Except ApiError α) = .ok d ∧
      getLocationsRes (Except.ok d : Except ApiError α) = .ok d ∧
      getCircuitsRes (Except.ok d : Except ApiError α) = .ok d ∧
      getUserProfilesRes (Except.ok d : Except ApiError α) = .ok d ∧
      (dashboardStats circuits).totalCircuits = circuits.length ∧
      (dashboardStats circuits).activeCircuits =
        circuits.countP (fun c => c.status == "Active") ∧
      (dashboardStats circuits).totalMonthlyCost =
        (circuits.map (fun c => c.monthlycost.getD 0)).sum := by
  refine ⟨rfl, rfl, rfl, rfl, rfl, ?_, ?_⟩
  · simp [dashboardStats, List.countP_eq_length_filter]
  · simp [dashboardStats, foldl_add_map_sum]

/-- C4 (counterexample): the claim says the update issued on submit
carries the longitude and latitude returned by geocoding, but
`mutationFn: () => updateLocation(location.id, formData)` takes no
parameter and ignores the variables object `mutate` received: at a concrete
form state the submit trace is identical whether the geocoder returned
`(-100, 40)` or `null`, and the issued save carries the bare form fields —
so the update cannot be carrying the geocoder's result. -/
theorem mutationFn_drops_geocoded_coordinates :
    handleSubmitTrace "loc-1" sampleFormState
        (some { longitude := -100, latitude := 40 }) =
      handleSubmitTrace "loc-1" sampleFormState none ∧
    (mutateVariables sampleFormState
        (some { longitude := -100, latitude := 40 })).longitude = some (-100) ∧
    mutationFn "loc-1" sampleFormState
        (mutateVariables sampleFormState
          (some { longitude := -100, latitude := 40 })) =
      SubmitEffect.save "loc-1" sampleFormState :=
  ⟨rfl, rfl, rfl⟩

/-- C4 (amended): on submit, exactly one side-effect sequence occurs — the
full address string `address, city, state zip_code` is geocoded first, and
only in the geocoder's `.then` continuation (so never before geocoding
completes) is the single location update issued; the continuation passes
the geocoded longitude and latitude to `mutate`, but the declared
`mutationFn` is a zero-argument closure over `formData`, so the issued
update carries only the form fields and the geocoded coordinates are
dropped. -/
theorem handleSubmit_geocodes_then_saves_form_fields (locationId : String)
    (f : LocationFormState) (coords : Option GeocodeCoords) :
    handleSubmitTrace locationId f coords =
      [SubmitEffect.geocode
          (f.address ++ ", " ++ f.city ++ ", " ++ f.state ++ " " ++ f.zip_code),
        SubmitEffect.save locationId f] ∧
      (mutateVariables f coords).longitude = coords.map (fun c => c.longitude) ∧
      (mutateVariables f coords).latitude = coords.map (fun c => c.latitude) ∧
      mutationFn locationId f (mutateVariables f coords) =
        SubmitEffect.save locationId f :=
  ⟨rfl, rfl, rfl, rfl⟩

/-! ### `getLocations` query lemmas -/

theorem eqFilter_some (c s : String) (h : s ≠ "") :
    eqFilter c (some s) = [.eq c s] := by
  simp [eqFilter, h]

theorem locationSearchFilter_some (s : String) (h : s ≠ "") :
    locationSearchFilter (some s) =
      [.orIlike [("name", "%" ++ s ++ "%"), ("address", "%" ++ s ++ "%"),
        ("city", "%" ++ s ++ "%"), ("state", "%" ++ s ++ "%")]] := by
  simp [locationSearchFilter, h]

theorem countP_eqFilter_self (c : String) (v : Option String) :
    (eqFilter c v).countP (fun p => p.isEqOn c) = if strTruthy v then 1 else 0 := by
  cases v with
  | none => simp [eqFilter, strTruthy]
  | some s =>
    by_cases hs : s = "" <;>
      simp [eqFilter, strTruthy, hs, QueryPred.isEqOn]

theorem countP_eqFilter_other (c c' : String) (h : (c == c') = false)
    (v : Option String) :
    (eqFilter c v).countP (fun p => p.isEqOn c') = 0 := by
  cases v with
  | none => simp [eqFilter]
  | some s =>
    by_cases hs : s = "" <;>
      simp [eqFilter, hs, QueryPred.isEqOn, h]

theorem countP_isEqOn_search (c : String) (v : Option String) :
    (locationSearchFilter v).countP (fun p => p.isEqOn c) = 0 := by
  cases v with
  | none => simp [locationSearchFilter]
  | some s =>
    by_cases hs : s = "" <;>
      simp [locationSearchFilter, hs, QueryPred.isEqOn]

theorem countP_orIlike_eqFilter (c : String) (v : Option String) :
    (eqFilter c v).countP QueryPred.isOrIlike = 0 := by
  cases v with
  | none => simp [eqFilter]
  | some s =>
    by_cases hs : s = "" <;> simp [eqFilter, hs, QueryPred.isOrIlike]

theorem countP_orIlike_search (v : Option String) :
    (locationSearchFilter v).countP QueryPred.isOrIlike =
      if strTruthy v then 1 else 0 := by
  cases v with
  | none => simp [locationSearchFilter, strTruthy]
  | some s =>
    by_cases hs : s = "" <;>
      simp [locationSearchFilter, strTruthy, hs, QueryPred.isOrIlike]

theorem length_eqFilter (c : String) (v : Option String) :
    (eqFilter c v).length = if strTruthy v then 1 else 0 := by
  cases v with
  | none => simp [eqFilter, strTruthy]
  | some s =>
    by_cases hs : s = "" <;> simp [eqFilter, strTruthy, hs]

theorem length_locationSearchFilter (v : Option String) :
    (locationSearchFilter v).length = if strTruthy v then 1 else 0 := by
  cases v with
  | none => simp [locationSearchFilter, strTruthy]
  | some s =>
    by_cases hs : s = "" <;> simp [locationSearchFilter, strTruthy, hs]

/-- C5 (confirmed): in the query `getLocations` builds, each provided
(truthy) `state`, `city`, `criticality`, `company_id` filter contributes
exactly one equality predicate on its column; a provided search string
contributes exactly one `.or(...)` of `ilike` patterns `%search%` over
`name`, `address`, `city`, `state`; an absent (`undefined`) or empty filter
field contributes nothing, and nothing else is chained (the total predicate
count is the sum of the per-field indicators). -/
theorem getLocationsQuery_filter_predicates (f : LocationFilters) :
    ((getLocationsQuery (some f)).countP (fun p => p.isEqOn "state") =
        if strTruthy f.state then 1 else 0) ∧
      ((getLocationsQuery (some f)).countP (fun p => p.isEqOn "city") =
        if strTruthy f.city then 1 else 0) ∧
      ((getLocationsQuery (some f)).countP (fun p => p.isEqOn "criticality") =
        if strTruthy f.criticality then 1 else 0) ∧
      ((getLocationsQuery (some f)).countP (fun p => p.isEqOn "company_id") =
        if strTruthy f.company_id then 1 else 0) ∧
      ((getLocationsQuery (some f)).countP QueryPred.isOrIlike =
        if strTruthy f.search then 1 else 0) ∧
      ((getLocationsQuery (some f)).length =
        (if strTruthy f.search then 1 else 0) +
          (if strTruthy f.state then 1 else 0) +
          (if strTruthy f.city then 1 else 0) +
          (if strTruthy f.criticality then 1 else 0) +
          (if strTruthy f.company_id then 1 else 0)) ∧
      (∀ s, f.state = some s → s ≠ "" →
        QueryPred.eq "state" s ∈ getLocationsQuery (some f)) ∧
      (∀ s, f.city = some s → s ≠ "" →
        QueryPred.eq "city" s ∈ getLocationsQuery (some f)) ∧
      (∀ s, f.criticality = some s → s ≠ "" →
        QueryPred.eq "criticality" s ∈ getLocationsQuery (some f)) ∧
      (∀ s, f.company_id = some s → s ≠ "" →
        QueryPred.eq "company_id" s ∈ getLocationsQuery (some f)) ∧
      (∀ s, f.search = some s → s ≠ "" →
        QueryPred.orIlike [("name", "%" ++ s ++ "%"), ("address", "%" ++ s ++ "%"),
          ("city", "%" ++ s ++ "%"), ("state", "%" ++ s ++ "%")] ∈
          getLocationsQuery (some f)) ∧
      getLocationsQuery none = [] := by
  refine ⟨?_, ?_, ?_, ?_, ?_, ?_, ?_, ?_, ?_, ?_, ?_, rfl⟩
  · simp only [getLocationsQuery, List.countP_append, countP_isEqOn_search,
      countP_eqFilter_self,
      countP_eqFilter_other "city" "state" (by decide),
      countP_eqFilter_other "criticality" "state" (by decide),
      countP_eqFilter_other "company_id" "state" (by decide)]
    omega
  · simp only [getLocationsQuery, List.countP_append, countP_isEqOn_search,
      countP_eqFilter_self,
      countP_eqFilter_other "state" "city" (by decide),
      countP_eqFilter_other "criticality" "city" (by decide),
      countP_eqFilter_other "company_id" "city" (by decide)]
    omega
  · simp only [getLocationsQuery, List.countP_append, countP_isEqOn_search,
      countP_eqFilter_self,
      countP_eqFilter_other "state" "criticality" (by decide),
      countP_eqFilter_other "city" "criticality" (by decide),
      countP_eqFilter_other "company_id" "criticality" (by decide)]
    omega
  · simp only [getLocationsQuery, List.countP_append, countP_isEqOn_search,
      countP_eqFilter_self,
      countP_eqFilter_other "state" "company_id" (by decide),
      countP_eqFilter_other "city" "company_id" (by decide),
      countP_eqFilter_other "criticality" "company_id" (by decide)]
    omega
  · simp only [getLocationsQuery, List.countP_append, countP_orIlike_search,
      countP_orIlike_eqFilter]
    omega
  · simp only [getLocationsQuery, List.length_append, length_eqFilter,
      length_locationSearchFilter]
  · intro s hs hne
    simp only [getLocationsQuery, List.mem_append, hs, eqFilter_some _ _ hne,
      List.mem_singleton]
    tauto
  · intro s hs hne
    simp only [getLocationsQuery, List.mem_append, hs, eqFilter_some _ _ hne,
      List.mem_singleton]
    tauto
  · intro s hs hne
    simp only [getLocationsQuery, List.mem_append, hs, eqFilter_some _ _ hne,
      List.mem_singleton]
    tauto
  · intro s hs hne
    simp only [getLocationsQuery, List.mem_append, hs, eqFilter_some _ _ hne,
      List.mem_singleton]
    tauto
  · intro s hs hne
    simp only [getLocationsQuery, List.mem_append, hs,
      locationSearchFilter_some _ hne, List.mem_singleton]
    tauto

/-- C5 (witness): the filter-predicate theorem evaluated at the concrete
filter object with search `hou`, state `TX`, an empty city, and no
criticality or company filter. -/
theorem getLocationsQuery_filter_predicates_witness :
    QueryPred.eq "state" "TX" ∈ getLocationsQuery (some sampleLocationFilters) ∧
      (getLocationsQuery (some sampleLocationFilters)).length = 2 :=
  ⟨(getLocationsQuery_filter_predicates sampleLocationFilters).2.2.2.2.2.2.1
      "TX" rfl (by decide),
    by
      have h := (getLocationsQuery_filter_predicates sampleLocationFilters).2.2.2.2.2.1
      simpa [sampleLocationFilters, strTruthy] using h⟩

/-- C6 (confirmed): every location record handled by the program carries an
enumerated criticality.  Rows delivered by the backend satisfy the
(spec-modelled) column constraint `BackendLocationRecord`, and each of them
gets one of the three enumerated badge colors in `LocationCard` — never the
fallback; the only criticality values the edit form can submit are the
select options `Low`/`Medium`/`High`. -/
theorem location_criticality_enumerated :
    (∀ r : BackendLocationRecord, ValidCriticality r.criticality ∧
        locationCardCriticalityColors r.criticality ≠
          "text-gray-500 bg-gray-50 dark:bg-gray-900/20") ∧
      ∀ o ∈ editFormCriticalityOptions, ValidCriticality o := by
  constructor
  · intro r
    refine ⟨r.criticality_enum, ?_⟩
    rcases r.criticality_enum with h | h | h <;> rw [h] <;> decide
  · intro o ho
    simp only [editFormCriticalityOptions, List.mem_cons,
      List.not_mem_nil, or_false] at ho
    rcases ho with rfl | rfl | rfl <;> decide

/-- C6 (witness): the enumeration theorem evaluated at a concrete backend
row with criticality `High` and at the form option `Low`. -/
theorem location_criticality_enumerated_witness :
    ValidCriticality
        (BackendLocationRecord.mk "High" (Or.inr (Or.inr rfl))).criticality ∧
      ValidCriticality "Low" :=
  ⟨(location_criticality_enumerated.1
      (BackendLocationRecord.mk "High" (Or.inr (Or.inr rfl)))).1,
    location_criticality_enumerated.2 "Low" (by decide)⟩

/-- C7 (counterexample): the claim says no in-process code path validates
field values and blocks an operation on the result, but the map component's
point loop does exactly that: at a concrete location whose longitude field
parses to 200 (outside `[-180, 180]`) the coordinate validation blocks the
add-point operation, while the same operation goes through for a location
with in-range coordinates. -/
theorem locationMap_blocks_on_coordinate_validation :
    mapPoints [badMapLocation] none = [] ∧
      mapPoints [goodMapLocation] none ≠ [] := by
  decide

/-- C7 (amended): record invariants on saves are left to HTML form
constraints and the backend — the address form's in-process validation only
produces a display message (`'Please enter a valid address'` or nothing)
and the submit path issues the save unconditionally — but the map component
is an exception: it validates the coordinate fields in-process and adds
points only for the locations that pass (the point count is the count of
locations with valid coordinates). -/
theorem in_process_validation_displays_only_except_map
    (v : Except ApiError Bool) (locationId : String) (f : LocationFormState)
    (coords : Option GeocodeCoords) (locs : List MapLocation)
    (sel : Option String) :
    (validateAndUpdate v = none ∨
        validateAndUpdate v = some "Please enter a valid address") ∧
      SubmitEffect.save locationId f ∈
        handleSubmitTrace locationId f coords ∧
      (mapPoints locs sel).length =
        locs.countP (fun l => (validCoords l.longitude l.latitude).isSome) := by
  refine ⟨?_, ?_, ?_⟩
  · rcases v with e | b
    · exact Or.inl rfl
    · cases b
      · exact Or.inr rfl
      · exact Or.inl rfl
  · simp [handleSubmitTrace, mutationFn]
  · unfold mapPoints
    rw [length_filterMap_eq_countP]
    apply List.countP_congr
    intro l _
    cases hv : validCoords l.longitude l.latitude <;> simp [hv]

/-- C8 (confirmed): when `getCurrentUserProfile` authenticates a user and
the profile fetch finds no row, it issues exactly one insert — the payload
`{ user_id, role: 'viewer' }` — and resolves with the row that insert
created; assuming the backend echoes the inserted columns, any profile the
call resolves with on this path has role `viewer` for that user.  (Every
successful call resolves with a profile by the shape of the result type.) -/
theorem getCurrentUserProfile_creates_viewer_profile (user : AuthUser)
    (fetch : String → Except ApiError (Option UserProfileRow))
    (insert : ProfileInsertPayload → Except ApiError UserProfileRow)
    (hfetch : fetch user.id = .ok none)
    (hecho : ∀ p r, insert p = .ok r → r.role = p.role ∧ r.user_id = p.user_id) :
    (getCurrentUserProfileRun (.ok (some user)) fetch insert).1 =
        [{ user_id := user.id, role := "viewer" }] ∧
      (∀ r, insert { user_id := user.id, role := "viewer" } = .ok r →
        (getCurrentUserProfileRun (.ok (some user)) fetch insert).2 = .ok r) ∧
      (∀ prof,
        (getCurrentUserProfileRun (.ok (some user)) fetch insert).2 = .ok prof →
        prof.role = "viewer" ∧ prof.user_id = user.id) := by
  simp only [getCurrentUserProfileRun, hfetch]
  cases hins : insert { user_id := user.id, role := "viewer" } with
  | error e =>
    refine ⟨rfl, ?_, ?_⟩
    · intro r hr
      simp at hr
    · intro prof hprof
      simp at hprof
  | ok newProfile =>
    refine ⟨rfl, ?_, ?_⟩
    · intro r hr
      simp only [Except.ok.injEq] at hr
      subst hr
      rfl
    · intro prof hprof
      simp only [Except.ok.injEq] at hprof
      subst hprof
      exact ⟨(hecho _ _ hins).1, (hecho _ _ hins).2⟩

/-- C8 (witness): the bootstrap theorem evaluated with a concrete user
`u1`, a fetch that finds no row, and an insert that echoes its payload. -/
theorem getCurrentUserProfile_creates_viewer_profile_witness :
    (getCurrentUserProfileRun (.ok (some { id := "u1" })) fetchProfileNone
        insertProfileEcho).1 = [{ user_id := "u1", role := "viewer" }] :=
  (getCurrentUserProfile_creates_viewer_profile { id := "u1" } fetchProfileNone
    insertProfileEcho rfl (by
      intro p r h
      simp only [insertProfileEcho, Except.ok.injEq] at h
      subst h
      exact ⟨rfl, rfl⟩)).1

/-- C9 (confirmed): `getDashboardStats` returns the number of fetched
circuits, the counts of circuits with status exactly `Active` and exactly
`Inactive` (two disjoint counts, so their sum is at most the total, with
equality only when every fetched circuit has one of those two statuses),
and the sum of `monthlycost` with a null/missing cost counted as 0. -/
theorem getDashboardStats_aggregation_spec (circuits : List StatCircuitRow) :
    (dashboardStats circuits).totalCircuits = circuits.length ∧
      (dashboardStats circuits).activeCircuits =
        circuits.countP (fun c => c.status == "Active") ∧
      (dashboardStats circuits).inactiveCircuits =
        circuits.countP (fun c => c.status == "Inactive") ∧
      (dashboardStats circuits).activeCircuits +
          (dashboardStats circuits).inactiveCircuits ≤
        (dashboardStats circuits).totalCircuits ∧
      ((dashboardStats circuits).activeCircuits +
            (dashboardStats circuits).inactiveCircuits =
          (dashboardStats circuits).totalCircuits →
        ∀ c ∈ circuits, c.status = "Active" ∨ c.status = "Inactive") ∧
      (dashboardStats circuits).totalMonthlyCost =
        (circuits.map (fun c => c.monthlycost.getD 0)).sum := by
  have hdisj : ∀ c : StatCircuitRow,
      (c.status == "Active") = true → (c.status == "Inactive") = false := by
    intro c h
    have hc : c.status = "Active" := by simpa using h
    simp [hc]
  have hcd := countP_disjoint (fun c => c.status == "Active")
    (fun c => c.status == "Inactive") hdisj circuits
  have h1 : (dashboardStats circuits).activeCircuits =
      circuits.countP (fun c => c.status == "Active") := by
    simp [dashboardStats, List.countP_eq_length_filter]
  have h2 : (dashboardStats circuits).inactiveCircuits =
      circuits.countP (fun c => c.status == "Inactive") := by
    simp [dashboardStats, List.countP_eq_length_filter]
  refine ⟨rfl, h1, h2, ?_, ?_, ?_⟩
  · rw [h1, h2]
    exact hcd.1
  · intro heq c hc
    rw [h1, h2] at heq
    rcases hcd.2 heq c hc with h | h
    · exact Or.inl (by simpa using h)
    · exact Or.inr (by simpa using h)
  · simp [dashboardStats, foldl_add_map_sum]

/-- C9 (witness): the aggregation theorem evaluated at the concrete fetched
list of one `Active` and one `Inactive` circuit, where the two counts
exhaust the total, so every fetched circuit has one of the two statuses. -/
theorem getDashboardStats_aggregation_spec_witness :
    ∀ c ∈ [statRowActive, statRowInactive],
      c.status = "Active" ∨ c.status = "Inactive" :=
  (getDashboardStats_aggregation_spec [statRowActive, statRowInactive]).2.2.2.2.1
    (by decide)

/-- C10 (confirmed): the map component adds a point for a location only
when both coordinates are present, parse to numbers, and lie in
`[-180, 180] × [-90, 90]`: every point in its two data sources (the
clustering source receives the identical list) has in-range coordinates,
the number of points is the count of locations passing the validation
(missing, non-numeric and out-of-range coordinates are skipped), and the
fitted bounding box, when it exists, has ordered in-range corners. -/
theorem mapPoints_and_bounds_in_range (locs : List MapLocation)
    (sel : Option String) :
    (∀ p ∈ mapPoints locs sel, PointInRange p) ∧
      clusterSourcePoints locs sel = mapPoints locs sel ∧
      (mapPoints locs sel).length =
        locs.countP (fun l => (validCoords l.longitude l.latitude).isSome) ∧
      ∀ b, mapBounds locs sel = some b → BoundsInRange b := by
  have hpts : ∀ p ∈ mapPoints locs sel, PointInRange p := by
    intro p hp
    obtain ⟨l, _, hmap⟩ := List.mem_filterMap.mp hp
    obtain ⟨⟨lo, la⟩, hvc, rfl⟩ := Option.map_eq_some'.mp hmap
    exact validCoords_range hvc
  refine ⟨hpts, rfl, ?_, ?_⟩
  · unfold mapPoints
    rw [length_filterMap_eq_countP]
    apply List.countP_congr
    intro l _
    cases hv : validCoords l.longitude l.latitude <;> simp [hv]
  · intro b hb
    exact foldl_extendBounds_range _ hpts none (by intro b' h; cases h) b hb

/-- C10 (witness): the range theorem evaluated at the single location with
coordinates `(-100, 40)`, whose fitted bounding box is the degenerate
in-range box at that point. -/
theorem mapPoints_and_bounds_in_range_witness :
    BoundsInRange { swLon := -100, swLat := 40, neLon := -100, neLat := 40 } :=
  (mapPoints_and_bounds_in_range [goodMapLocation] none).2.2.2
    { swLon := -100, swLat := 40, neLon := -100, neLat := 40 } (by decide)
